import Mathlib

/-!
Verification of the Code Quality Assessment & Approval-Gating Engine and the
Checkpoint/Validation Orchestrator of the `ai_agents` package.

The Python sources are shallowly embedded:

* `ai_agents/reviewer.py` — the static analyzer (`analyze_code_metrics` and its
  helpers `_calculate_complexity`, `_extract_dependencies`,
  `_calculate_maintainability`, `_analyze_security`, `_analyze_performance`),
  the aggregation (`_calculate_overall_score`), the decision rule
  (`_determine_approval_status`) and the pure core of `review_code`.
* `ai_agents/checkpoint_system.py` / `ai_agents/approval_system.py` — the
  checkpoint registry (`create_checkpoint`, `validate_checkpoint`,
  `get_checkpoint_status`) and the per-role cross-validation error folding
  (`cross_validate_with_role`).

Conventions of the embedding:

* Python `float` values are modelled as exact numbers: scores that are built
  from integer deductions (`security_score`, `performance_score`) live in `ℚ`,
  the maintainability index (which uses `math.log`) lives in `ℝ`.
* `datetime.now()` is an input (`now : ℕ`), the generative-model calls are
  inputs (the parsed response data, or an `Except` value for a call that can
  fail), file persistence is dropped (pure formatting/IO, no data flow back).
* Exceptions are `Except String`; an operation that cannot raise is total.
-/

namespace AIAgents

/-! ## The Python `ast` subset used by the analyzers

Only node kinds inspected by `reviewer.py` are distinguished; every other
expression or statement is `constant` (or built from `exprStmt`).  `assign`
and `call` carry their source line because the security scanner reports
`f"Line {node.lineno}"` locations.  `dictLit` deliberately stores `keys` and
`vals` — a Python `ast.Dict` has no `elts` field, which matters below.
-/
inductive Ast where
  | module (body : List Ast)
  | functionDef (name : String) (body : List Ast)
  | classDef (name : String) (body : List Ast)
  | ifStmt (test : Ast) (body : List Ast) (orelse : List Ast)
  | whileStmt (test : Ast) (body : List Ast)
  | forStmt (target : Ast) (iter : Ast) (body : List Ast)
  | tryStmt (body : List Ast) (handlers : List Ast)
  | exceptHandler (body : List Ast)
  | boolOp (values : List Ast)
  | assign (lineno : Nat) (targets : List Ast) (value : Ast)
  | name (id : String)
  | attr (value : Ast) (attrName : String)
  | call (lineno : Nat) (func : Ast) (args : List Ast)
  | listLit (elts : List Ast)
  | dictLit (keys : List Ast) (vals : List Ast)
  | exprStmt (value : Ast)
  | constant
/- `ast.walk(node)`: the node itself and every descendant.  Python's `walk`
enumerates breadth-first; the scanners only count/filter over the resulting
collection and subtract per-element deductions, so the enumeration order is
immaterial and a structural traversal is used. -/
mutual
def Ast.walk : Ast → List Ast
  | .module body => .module body :: Ast.walkList body
  | .functionDef n body => .functionDef n body :: Ast.walkList body
  | .classDef n body => .classDef n body :: Ast.walkList body
  | .ifStmt t body orelse => .ifStmt t body orelse :: (Ast.walk t ++ Ast.walkList body ++ Ast.walkList orelse)
  | .whileStmt t body => .whileStmt t body :: (Ast.walk t ++ Ast.walkList body)
  | .forStmt tgt iter body => .forStmt tgt iter body :: (Ast.walk tgt ++ Ast.walk iter ++ Ast.walkList body)
  | .tryStmt body handlers => .tryStmt body handlers :: (Ast.walkList body ++ Ast.walkList handlers)
  | .exceptHandler body => .exceptHandler body :: Ast.walkList body
  | .boolOp values => .boolOp values :: Ast.walkList values
  | .assign ln tgts v => .assign ln tgts v :: (Ast.walkList tgts ++ Ast.walk v)
  | .name i => [.name i]
  | .attr v a => .attr v a :: Ast.walk v
  | .call ln f args => .call ln f args :: (Ast.walk f ++ Ast.walkList args)
  | .listLit elts => .listLit elts :: Ast.walkList elts
  | .dictLit keys vals => .dictLit keys vals :: (Ast.walkList keys ++ Ast.walkList vals)
  | .exprStmt v => .exprStmt v :: Ast.walk v
  | .constant => [.constant]

def Ast.walkList : List Ast → List Ast
  | [] => []
  | a :: as => Ast.walk a ++ Ast.walkList as
end

/- Structural equality on `Ast`.  Python compares AST nodes by object
identity; in the places `reviewer.py` compares nodes (`child != node` inside a
loop's own subtree, `node in ast.walk(parent)`), identity and structural
equality coincide for the excluded self-node, because a tree is never equal to
a proper subtree of itself. -/
mutual
def Ast.beq : Ast → Ast → Bool
  | .module b₁, .module b₂ => Ast.beqList b₁ b₂
  | .functionDef n₁ b₁, .functionDef n₂ b₂ => n₁ == n₂ && Ast.beqList b₁ b₂
  | .classDef n₁ b₁, .classDef n₂ b₂ => n₁ == n₂ && Ast.beqList b₁ b₂
  | .ifStmt t₁ b₁ o₁, .ifStmt t₂ b₂ o₂ => Ast.beq t₁ t₂ && Ast.beqList b₁ b₂ && Ast.beqList o₁ o₂
  | .whileStmt t₁ b₁, .whileStmt t₂ b₂ => Ast.beq t₁ t₂ && Ast.beqList b₁ b₂
  | .forStmt g₁ i₁ b₁, .forStmt g₂ i₂ b₂ => Ast.beq g₁ g₂ && Ast.beq i₁ i₂ && Ast.beqList b₁ b₂
  | .tryStmt b₁ h₁, .tryStmt b₂ h₂ => Ast.beqList b₁ b₂ && Ast.beqList h₁ h₂
  | .exceptHandler b₁, .exceptHandler b₂ => Ast.beqList b₁ b₂
  | .boolOp v₁, .boolOp v₂ => Ast.beqList v₁ v₂
  | .assign l₁ t₁ v₁, .assign l₂ t₂ v₂ => l₁ == l₂ && Ast.beqList t₁ t₂ && Ast.beq v₁ v₂
  | .name i₁, .name i₂ => i₁ == i₂
  | .attr v₁ a₁, .attr v₂ a₂ => Ast.beq v₁ v₂ && a₁ == a₂
  | .call l₁ f₁ a₁, .call l₂ f₂ a₂ => l₁ == l₂ && Ast.beq f₁ f₂ && Ast.beqList a₁ a₂
  | .listLit e₁, .listLit e₂ => Ast.beqList e₁ e₂
  | .dictLit k₁ v₁, .dictLit k₂ v₂ => Ast.beqList k₁ k₂ && Ast.beqList v₁ v₂
  | .exprStmt v₁, .exprStmt v₂ => Ast.beq v₁ v₂
  | .constant, .constant => true
  | _, _ => false

def Ast.beqList : List Ast → List Ast → Bool
  | [], [] => true
  | a :: as, b :: bs => Ast.beq a b && Ast.beqList as bs
  | _, _ => false
end

instance : BEq Ast := ⟨Ast.beq⟩

/-! ## Data model (`reviewer.py`) -/

structure SecurityIssue where
  severity : String
  category : String
  description : String
  location : String
  recommendation : String
  cwe_id : Option String := none
  cvss_score : Option ℚ := none
deriving DecidableEq, Repr

structure PerformanceMetric where
  category : String
  value : ℚ
  unit : String
  threshold : ℚ
  status : String
  recommendation : Option String := none
deriving DecidableEq, Repr

structure ReviewFinding where
  type : String
  severity : String
  file_path : String
  line_number : Nat
  code_snippet : String
  description : String
  suggestion : String
  category : String
  references : Option (List String) := none
deriving DecidableEq, Repr

/-- `CodeMetrics` (a `@dataclass` in the source).  The two scores built purely
from integer deductions are exact rationals; the maintainability index uses
`math.log` and lives in `ℝ`. -/
structure CodeMetrics where
  lines_of_code : Nat
  comment_lines : Nat
  complexity : List (String × Nat)
  dependencies : List String
  maintainability_index : ℝ
  security_score : ℚ
  performance_score : ℚ

/-! ## `_calculate_complexity` -/

/-- Per-node contribution inside `_calculate_complexity`'s walk:
`If`/`While`/`For`/`ExceptHandler` add 1, a `BoolOp` adds
`len(values) - 1`, everything else adds 0. -/
def complexityContribution : Ast → Nat
  | .ifStmt _ _ _ => 1
  | .whileStmt _ _ => 1
  | .forStmt _ _ _ => 1
  | .exceptHandler _ => 1
  | .boolOp values => values.length - 1
  | _ => 0

/-- `_calculate_complexity`: `1 +` the walk-sum of branch contributions. -/
def calculate_complexity (node : Ast) : Nat :=
  1 + (node.walk.map complexityContribution).sum

/-- Python `dict` assignment `complexity[name] = v`: replace in place if the
key is present (a dict keeps the first-insertion position), else append. -/
def insertComplexity (m : List (String × Nat)) (k : String) (v : Nat) : List (String × Nat) :=
  if m.any (fun p => p.1 == k) then m.map (fun p => if p.1 == k then (k, v) else p)
  else m ++ [(k, v)]

/-- The `complexity` dict of `analyze_code_metrics`: for every
`FunctionDef`/`ClassDef` in the walk, its cyclomatic complexity. -/
def complexity_map (tree : Ast) : List (String × Nat) :=
  tree.walk.foldl (fun m node =>
    match node with
    | .functionDef n body => insertComplexity m n (calculate_complexity (.functionDef n body))
    | .classDef n body => insertComplexity m n (calculate_complexity (.classDef n body))
    | _ => m) []

/-! ## `_extract_dependencies`

The source scans the raw code text with three regular expressions,
`import\s+(\w+)`, `from\s+(\w+)\s+import` and
`require\s*\(\s*['"](.+?)['"]\s*\)`, collecting the captures into a `set`.
The matchers below implement exactly those patterns (left-to-right scan,
non-overlapping, shortest capture for the lazy group). -/

/-- Python `code.split('\n')` on the character list: every occurrence of the
separator splits, empty pieces are kept, and the empty string yields one empty
piece (`''.split('\n') == ['']`). -/
def splitLinesList : List Char → List (List Char)
  | [] => [[]]
  | c :: cs =>
    match splitLinesList cs with
    | h :: t => if c == '\n' then [] :: h :: t else (c :: h) :: t
    | [] => [[c]]

def splitLines (s : String) : List String := (splitLinesList s.toList).map String.mk

def isWordChar (c : Char) : Bool := c.isAlpha || c.isDigit || c == '_'

def isSpaceChar (c : Char) : Bool :=
  c == ' ' || c == '\t' || c == '\n' || c == '\r' || c == '\x0b' || c == '\x0c'

def isQuoteChar (c : Char) : Bool := c.val == 39 || c == '"'

def matchLit : List Char → List Char → Option (List Char)
  | [], rest => some rest
  | _, [] => none
  | p :: ps, c :: cs => if p == c then matchLit ps cs else none

/-- `import\s+(\w+)` at the current position. -/
def tryImportPat (s : List Char) : Option (String × List Char) := do
  let r1 ← matchLit "import".toList s
  let (sp, r2) := r1.span isSpaceChar
  if sp.isEmpty then none else
  let (w, r3) := r2.span isWordChar
  if w.isEmpty then none else
  some (String.mk w, r3)

/-- `from\s+(\w+)\s+import` at the current position. -/
def tryFromPat (s : List Char) : Option (String × List Char) := do
  let r1 ← matchLit "from".toList s
  let (sp1, r2) := r1.span isSpaceChar
  if sp1.isEmpty then none else
  let (w, r3) := r2.span isWordChar
  if w.isEmpty then none else
  let (sp2, r4) := r3.span isSpaceChar
  if sp2.isEmpty then none else
  let r5 ← matchLit "import".toList r4
  some (String.mk w, r5)

/-- `\s*\)` — the tail that must follow the closing quote. -/
def closeAfterQuote (s : List Char) : Option (List Char) :=
  let (_, rest) := s.span isSpaceChar
  match rest with
  | c :: cs => if c == ')' then some cs else none
  | [] => none

/-- The lazy group `(.+?)` followed by `['"]\s*\)`: scan forward, and at the
first quote character whose tail matches, stop (shortest capture wins; `.`
does not cross a newline; a quote whose tail fails is consumed as capture
text, as the regex engine would on backtracking). -/
def tryCaptureReq : Nat → List Char → List Char → Option (String × List Char)
  | 0, _, _ => none
  | _ + 1, _, [] => none
  | fuel + 1, acc, c :: cs =>
    if c == '\n' then none
    else if isQuoteChar c && !acc.isEmpty then
      match closeAfterQuote cs with
      | some rest => some (String.mk acc.reverse, rest)
      | none => tryCaptureReq fuel (c :: acc) cs
    else tryCaptureReq fuel (c :: acc) cs

/-- `require\s*\(\s*['"](.+?)['"]\s*\)` at the current position. -/
def tryRequirePat (s : List Char) : Option (String × List Char) := do
  let r1 ← matchLit "require".toList s
  let (_, r2) := r1.span isSpaceChar
  let r3 ← match r2 with
           | c :: cs => if c == '(' then some cs else none
           | [] => none
  let (_, r4) := r3.span isSpaceChar
  let r5 ← match r4 with
           | c :: cs => if isQuoteChar c then some cs else none
           | [] => none
  tryCaptureReq (r5.length + 1) [] r5

/-- `re.finditer`: try the pattern at every position, left to right,
continuing after each match (non-overlapping). -/
def scanMatches (pat : List Char → Option (String × List Char)) : Nat → List Char → List String
  | 0, _ => []
  | _ + 1, [] => []
  | fuel + 1, c :: cs =>
    match pat (c :: cs) with
    | some (w, rest) => w :: scanMatches pat fuel rest
    | none => scanMatches pat fuel cs

def findAllMatches (pat : List Char → Option (String × List Char)) (code : String) : List String :=
  scanMatches pat code.toList.length code.toList

def addUnique (l : List String) (x : String) : List String :=
  if l.contains x then l else l ++ [x]

/-- `_extract_dependencies`: union of the captures of the three patterns.  The
source collects into a `set` and returns `list(...)`, whose order is the
interpreter's hash order; the model keeps first-occurrence order, which is
deterministic in the same way the source's order is within one process. -/
def extract_dependencies (code : String) : List String :=
  (findAllMatches tryImportPat code ++ findAllMatches tryFromPat code ++
    findAllMatches tryRequirePat code).foldl addUnique []

/-! ## `_calculate_maintainability` -/

/-- `_calculate_maintainability`: `0.0` on zero lines, otherwise
`100 - complexity_per_line*25 + comment_ratio*15 - log(total_lines)*10`
clamped into `[0, 100]` by `max(0.0, min(100.0, _))`. -/
noncomputable def calculate_maintainability
    (total_lines comment_lines complexity : Nat) : ℝ :=
  if total_lines = 0 then 0
  else
    let comment_ratio : ℝ := (comment_lines : ℝ) / (total_lines : ℝ)
    let complexity_per_line : ℝ := (complexity : ℝ) / (total_lines : ℝ)
    let maintainability : ℝ :=
      100 - complexity_per_line * 25 + comment_ratio * 15 - Real.log (total_lines : ℝ) * 10
    max 0 (min 100 maintainability)

/-! ## `_analyze_security` -/

def credentialWords : List String := ["password", "secret", "key", "token"]

def isPrefixChars : List Char → List Char → Bool
  | [], _ => true
  | _ :: _, [] => false
  | p :: ps, c :: cs => p == c && isPrefixChars ps cs

/-- Python's `word in name` substring test. -/
def strContains (s pat : String) : Bool :=
  s.toList.tails.any (isPrefixChars pat.toList)

/-- Python's `name.lower()` (the analyzed identifiers are ASCII). -/
def strLower (s : String) : String := String.mk (s.toList.map Char.toLower)

/-- Python's `line.strip().startswith('#')`. -/
def lineIsComment (line : List Char) : Bool :=
  match line.dropWhile isSpaceChar with
  | c :: _ => c == '#'
  | [] => false

/-- The issues `_analyze_security` appends while visiting one node: hardcoded
credential names on `Assign` targets, `eval`/`exec` calls, and
`execute`/`executemany` attribute calls. -/
def securityIssuesAtNode : Ast → List SecurityIssue
  | .assign ln tgts _ =>
      tgts.flatMap fun t =>
        match t with
        | .name i =>
            if credentialWords.any (fun w => strContains (strLower i) w) then
              [{ severity := "high", category := "credentials",
                 description := "Potential hardcoded credentials",
                 location := "Line " ++ toString ln,
                 recommendation := "Use environment variables or secure storage",
                 cwe_id := some "CWE-798" }]
            else []
        | _ => []
  | .call ln f _ =>
      match f with
      | .name i =>
          if i == "eval" || i == "exec" then
            [{ severity := "critical", category := "code_injection",
               description := "Use of eval/exec is dangerous",
               location := "Line " ++ toString ln,
               recommendation := "Avoid using eval/exec",
               cwe_id := some "CWE-95" }]
          else []
      | .attr _ a =>
          if a == "execute" || a == "executemany" then
            [{ severity := "high", category := "sql_injection",
               description := "Potential SQL injection vulnerability",
               location := "Line " ++ toString ln,
               recommendation := "Use parameterized queries",
               cwe_id := some "CWE-89" }]
          else []
      | _ => []
  | _ => []

def security_issues_of (tree : Ast) : List SecurityIssue :=
  tree.walk.flatMap securityIssuesAtNode

/-- `deductions.get(issue.severity, 10)`. -/
def securityDeduction (sev : String) : ℚ :=
  if sev == "low" then 5 else if sev == "medium" then 10
  else if sev == "high" then 20 else if sev == "critical" then 40 else 10

/-- `_analyze_security`'s score: early `100.0` when no issues, otherwise
start at `100.0`, subtract the per-severity deduction for each issue, floor
at `0.0`. -/
def analyze_security (tree : Ast) : ℚ :=
  let issues := security_issues_of tree
  if issues.isEmpty then 100
  else max 0 (issues.foldl (fun s i => s - securityDeduction i.severity) 100)

/-! ## `_analyze_performance` -/

def isLoopNode : Ast → Bool
  | .forStmt _ _ _ => true
  | .whileStmt _ _ => true
  | _ => false

def isForNode : Ast → Bool
  | .forStmt _ _ _ => true
  | _ => false

/-- `node.elts`.  An `ast.List` has an `elts` field; an `ast.Dict` has `keys`
and `values` but **no** `elts`, so the attribute access the source performs on
it raises `AttributeError`. -/
def eltsAttr : Ast → Except String (List Ast)
  | .listLit elts => .ok elts
  | .dictLit _ _ => .error "AttributeError: Dict object has no attribute elts"
  | _ => .error "AttributeError: node has no attribute elts"

def nestedLoopIssue : PerformanceMetric :=
  { category := "complexity", value := 1, unit := "nested_loops", threshold := 0,
    status := "warning",
    recommendation := some "Consider restructuring nested loops for better performance" }

def queryInLoopIssue : PerformanceMetric :=
  { category := "database", value := 1, unit := "query_in_loop", threshold := 0,
    status := "warning",
    recommendation := some "Consider using batch queries instead of queries in loops" }

/-- The issues `_analyze_performance` appends while visiting one node, in the
source's order: nested loops, oversized `List`/`Dict` literals (where the
`Dict` branch dies on the missing `elts` attribute), then query-like calls
under a `For` ancestor in the whole tree. -/
def perfIssuesAtNode (tree node : Ast) : Except String (List PerformanceMetric) := do
  let nested : List PerformanceMetric :=
    if isLoopNode node then
      (node.walk.filter (fun child => isLoopNode child && !(child == node))).map
        (fun _ => nestedLoopIssue)
    else []
  let large : List PerformanceMetric ←
    match node with
    | .listLit elts =>
        (do
          let es ← eltsAttr (.listLit elts)
          pure (if 1000 < es.length then
            [{ category := "memory", value := (es.length : ℚ), unit := "elements",
               threshold := 1000, status := "warning",
               recommendation := some "Large data structure might impact memory usage" }]
            else []))
    | .dictLit keys vals =>
        (do
          let es ← eltsAttr (.dictLit keys vals)
          pure (if 1000 < es.length then
            [{ category := "memory", value := (es.length : ℚ), unit := "elements",
               threshold := 1000, status := "warning",
               recommendation := some "Large data structure might impact memory usage" }]
            else []))
    | _ => pure []
  let queries : List PerformanceMetric :=
    match node with
    | .call ln f args =>
        match f with
        | .attr _ a =>
            if a == "execute" || a == "query" || a == "find" then
              (tree.walk.filter (fun parent =>
                isForNode parent && parent.walk.contains (Ast.call ln f args))).map
                (fun _ => queryInLoopIssue)
            else []
        | _ => []
    | _ => []
  pure (nested ++ large ++ queries)

/-- The issue list of `_analyze_performance`, accumulated over the walk;
the first node that raises aborts the analysis, as in the source. -/
def performance_issues_of (tree : Ast) : Except String (List PerformanceMetric) :=
  tree.walk.foldlM (fun acc node => do pure (acc ++ (← perfIssuesAtNode tree node))) []

/-- `deductions.get(issue.status, 5)`. -/
def perfDeduction (st : String) : ℚ :=
  if st == "info" then 2 else if st == "warning" then 5
  else if st == "error" then 15 else if st == "critical" then 30 else 5

/-- `_analyze_performance`'s score, mirroring `_analyze_security`'s shape. -/
def analyze_performance (tree : Ast) : Except String ℚ := do
  let issues ← performance_issues_of tree
  if issues.isEmpty then pure 100
  else pure (max 0 (issues.foldl (fun s i => s - perfDeduction i.status) 100))

/-! ## `analyze_code_metrics`

`ast.parse` is the Python standard library; the analysis is modelled on the
already-parsed `tree` together with the raw `code` text used for the line and
dependency scans.  Any exception inside the body (in particular the
`AttributeError` from the performance scan) is logged and re-raised by the
source, i.e. propagated. -/
noncomputable def analyze_code_metrics (code : String) (tree : Ast) :
    Except String CodeMetrics :=
  let lines := splitLinesList code.toList
  let total_lines := lines.length
  let comment_lines := (lines.filter lineIsComment).length
  let complexity := complexity_map tree
  let dependencies := extract_dependencies code
  let maintainability :=
    calculate_maintainability total_lines comment_lines (complexity.map Prod.snd).sum
  let security_score := analyze_security tree
  match analyze_performance tree with
  | .error e => .error e
  | .ok performance_score =>
      .ok { lines_of_code := total_lines, comment_lines := comment_lines,
            complexity := complexity, dependencies := dependencies,
            maintainability_index := maintainability,
            security_score := security_score,
            performance_score := performance_score }

/-! ## `_determine_approval_status` and `_calculate_overall_score` -/

/-- `_determine_approval_status`, the source's cascade verbatim. -/
noncomputable def determine_approval_status
    (findings : List ReviewFinding) (metrics : CodeMetrics) : String :=
  if findings.any (fun f => f.severity == "critical") then "rejected"
  else if metrics.security_score < 70 then "rejected"
  else if 3 < (findings.filter
      (fun f => f.severity == "high" || f.severity == "critical")).length then "needs_revision"
  else if metrics.maintainability_index < 60 then "needs_revision"
  else if 80 ≤ metrics.security_score ∧ 70 ≤ metrics.maintainability_index ∧
      75 ≤ metrics.performance_score then "approved"
  else "needs_revision"

/-- `deductions.get(finding.severity, 0)` of `_calculate_overall_score`. -/
def overallDeduction (sev : String) : ℚ :=
  if sev == "critical" then 20 else if sev == "high" then 10
  else if sev == "medium" then 5 else if sev == "low" then 2 else 0

/-- `_calculate_overall_score`: weighted base from the three metric scores,
minus per-finding deductions, clamped into `[0, 100]`. -/
noncomputable def calculate_overall_score
    (findings : List ReviewFinding) (metrics : CodeMetrics) : ℝ :=
  let base_score : ℝ := metrics.maintainability_index * 0.3 +
    (metrics.security_score : ℝ) * 0.4 + (metrics.performance_score : ℝ) * 0.3
  max 0 (min 100 (findings.foldl (fun s f => s - (overallDeduction f.severity : ℝ)) base_score))

/-! ## `review_code` -/

structure ReviewSummary where
  timestamp : Nat
  commit_id : Option String
  files_reviewed : List String
  total_findings : Nat
  security_issues : List ReviewFinding
  performance_metrics : List ReviewFinding
  style_violations : List ReviewFinding
  overall_score : ℝ
  recommendations : List String
  approval_status : String
  reviewer_comments : String

/-- The pure core of `review_code`.  The generative-model call is an input
(the parsed `findings`/`recommendations`/`comments` of its JSON response), the
wall clock `datetime.now()` is the input `now`, and `context.get('commit_id')`
is the input `commit_id`.  The summary buckets the external findings by
category and applies the aggregation and decision functions to the computed
metrics. -/
noncomputable def review_code (now : Nat) (code : String) (tree : Ast)
    (file_path : String) (commit_id : Option String)
    (findings : List ReviewFinding) (recommendations : List String)
    (comments : String) : Except String ReviewSummary :=
  match analyze_code_metrics code tree with
  | .error e => .error e
  | .ok metrics =>
      .ok { timestamp := now,
            commit_id := commit_id,
            files_reviewed := [file_path],
            total_findings := findings.length,
            security_issues := findings.filter (fun f => f.category == "security"),
            performance_metrics := findings.filter (fun f => f.category == "performance"),
            style_violations := findings.filter (fun f => f.category == "style"),
            overall_score := calculate_overall_score findings metrics,
            recommendations := recommendations,
            approval_status := determine_approval_status findings metrics,
            reviewer_comments := comments }

/-! ## Checkpoint system (`checkpoint_system.py`, `approval_system.py`) -/

structure ValidationResult where
  is_approved : Bool
  issues : List String := []
  suggestions : List String := []
deriving DecidableEq, Repr

structure RoleFeedback where
  concerns : List String
  suggestions : List String
deriving DecidableEq, Repr

structure CheckpointStatus where
  checkpoint_id : String
  stage : String
  status : String
  validation_result : Option ValidationResult := none
  cross_validation_results : Option (List (String × RoleFeedback)) := none
  timestamp : Nat
  approved_by : Option (List String) := none
  blocking_issues : Option (List String) := none
deriving DecidableEq, Repr

/-- The `self.checkpoints` dict, modelled as a keyed lookup. -/
def Store : Type := String → Option CheckpointStatus

/-- `self.checkpoints[checkpoint_id] = checkpoint` — keyed insert/overwrite. -/
def insertStore (store : Store) (k : String) (v : CheckpointStatus) : Store :=
  fun k' => if k' = k then some v else store k'

/-- `create_checkpoint`: build a fresh `pending` record and store it under its
id.  The source performs a plain dict assignment with no membership check. -/
def create_checkpoint (store : Store) (checkpoint_id stage : String) (now : Nat) :
    CheckpointStatus × Store :=
  let checkpoint : CheckpointStatus :=
    { checkpoint_id := checkpoint_id, stage := stage, status := "pending",
      timestamp := now }
  (checkpoint, insertStore store checkpoint_id checkpoint)

/-- `get_checkpoint_status`: lookup, `ValueError` when absent. -/
def get_checkpoint_status (store : Store) (checkpoint_id : String) :
    Except String CheckpointStatus :=
  match store checkpoint_id with
  | none => .error ("Checkpoint " ++ checkpoint_id ++ " not found")
  | some c => .ok c

/-- `cross_validate_with_role`: the advisory call for one role either returns
feedback, or fails; a failure is caught and folded into a `RoleFeedback`
whose concerns carry the error message. -/
def cross_validate_with_role (callResult : Except String RoleFeedback) : RoleFeedback :=
  match callResult with
  | .ok feedback => feedback
  | .error e =>
      { concerns := ["Cross-validation error: " ++ e],
        suggestions := ["Please retry the validation process"] }

/-- `validate_checkpoint`.  The stage-specific primary validation is the input
`primary` (`validate_product_specs` / `validate_architecture` both catch their
own failures and return a `ValidationResult`).  Per-role advisory calls are
the input `calls`; each is folded through `cross_validate_with_role`.  The
source looks the checkpoint up (raising `ValueError` when absent — the only
check it performs), joins all role feedback, flattens the concerns into
`blocking_issues` (normalised to `None` when empty by
`blocking_issues if blocking_issues else None`), and transitions the status:
`approved` — recording `approved_by = validation_roles` — exactly when the
primary validation approved and no concerns were raised, else `rejected`. -/
def validate_checkpoint (store : Store) (checkpoint_id : String)
    (primary : ValidationResult) (validation_roles : List String)
    (calls : String → Except String RoleFeedback) :
    Except String (CheckpointStatus × Store) :=
  match store checkpoint_id with
  | none => .error ("Checkpoint " ++ checkpoint_id ++ " not found")
  | some checkpoint =>
      let cross_validation_results : List (String × RoleFeedback) :=
        validation_roles.map (fun role => (role, cross_validate_with_role (calls role)))
      let blocking_issues : List String :=
        cross_validation_results.flatMap (fun p => p.2.concerns)
      let approved : Bool := primary.is_approved && blocking_issues.isEmpty
      let updated : CheckpointStatus :=
        { checkpoint with
          validation_result := some primary,
          cross_validation_results := some cross_validation_results,
          blocking_issues := if blocking_issues.isEmpty then none else some blocking_issues,
          status := if approved then "approved" else "rejected",
          approved_by := if approved then some validation_roles else checkpoint.approved_by }
      .ok (updated, insertStore store checkpoint_id updated)

/-! ## Specification-side statements of the scoring rules

These restate §4.4/§4.2/§4.6 of the specification in the spec's own wording;
the theorems below compare them with the translated source functions. -/

/-- §4.6: the ordered rule set, first match wins — (1) any critical finding
rejects, (2) security below 70 rejects, (3) more than 3 high-or-critical
findings need revision, (4) maintainability below 60 needs revision,
(5) security ≥ 80 and maintainability ≥ 70 and performance ≥ 75 approve,
(6) otherwise needs revision. -/
noncomputable def approvalSpecRules (findings : List ReviewFinding) (m : CodeMetrics) : String :=
  if ∃ f ∈ findings, f.severity = "critical" then "rejected"
  else if m.security_score < 70 then "rejected"
  else if 3 < (findings.filter
      (fun f => decide (f.severity = "high" ∨ f.severity = "critical"))).length then
    "needs_revision"
  else if m.maintainability_index < 60 then "needs_revision"
  else if 80 ≤ m.security_score ∧ 70 ≤ m.maintainability_index ∧
      75 ≤ m.performance_score then "approved"
  else "needs_revision"

/-- §4.4: `index = 100 − complexity_per_line×25 + comment_ratio×15 −
ln(total_lines)×10`, clamped to `[0,100]`, and `0.0` on zero lines. -/
noncomputable def maintainabilitySpecForm (total_lines comment_lines total_complexity : Nat) : ℝ :=
  if total_lines = 0 then 0
  else max 0 (min 100
    (100 - ((total_complexity : ℝ) / (total_lines : ℝ)) * 25
      + ((comment_lines : ℝ) / (total_lines : ℝ)) * 15
      - Real.log (total_lines : ℝ) * 10))

/-! ## Helper lemmas -/

theorem foldl_sub_eq_sub_sum (f : α → ℚ) (l : List α) (a : ℚ) :
    l.foldl (fun s i => s - f i) a = a - (l.map f).sum := by
  induction l generalizing a with
  | nil => simp
  | cons hd tl ih => simp [ih, sub_sub]

theorem filter_severity_congr (findings : List ReviewFinding) :
    (findings.filter (fun f => f.severity == "high" || f.severity == "critical")) =
    (findings.filter (fun f => decide (f.severity = "high" ∨ f.severity = "critical"))) := by
  apply List.filter_congr
  intro x _
  by_cases hx : x.severity = "high" <;> by_cases hy : x.severity = "critical" <;>
    simp [hx, hy]

theorem analyze_security_unfold (t : Ast) : analyze_security t =
    if (security_issues_of t).isEmpty then 100
    else max 0 ((security_issues_of t).foldl
      (fun s i => s - securityDeduction i.severity) 100) := rfl

/-! ## Concrete artifacts used in scenario/boundary theorems -/

/-- The parse tree of a source whose only statement is a dynamic-code-execution
call, e.g. `eval('x')`. -/
def evalOnlyTree : Ast := .module [.exprStmt (.call 1 (.name "eval") [.constant])]

/-- The single issue the security scanner reports for `evalOnlyTree`. -/
def evalIssue : SecurityIssue :=
  { severity := "critical", category := "code_injection",
    description := "Use of eval/exec is dangerous", location := "Line 1",
    recommendation := "Avoid using eval/exec", cwe_id := some "CWE-95" }

/-- The parse tree of an assignment whose right-hand side is a one-entry dict
literal, e.g. `d = dict(a=2)` written as a literal. -/
def dictAssignTree : Ast := .module [.assign 1 [.name "d"] (.dictLit [.constant] [.constant])]

/-- The metrics `analyze_code_metrics` produces for the empty source text. -/
noncomputable def emptyMetrics : CodeMetrics :=
  { lines_of_code := 1, comment_lines := 0, complexity := [], dependencies := [],
    maintainability_index := calculate_maintainability 1 0 0,
    security_score := 100, performance_score := 100 }

theorem empty_metrics_eq : analyze_code_metrics "" (.module []) = .ok emptyMetrics := rfl

theorem empty_maintainability : emptyMetrics.maintainability_index = 100 := by
  norm_num [emptyMetrics, calculate_maintainability, Real.log_one]

/-- `(roles.map (role, feedback)).flatMap concerns` is the direct
concatenation of each role's concerns. -/
theorem flatMap_concerns (roles : List String) (calls : String → Except String RoleFeedback) :
    ((roles.map (fun role => (role, cross_validate_with_role (calls role)))).flatMap
      (fun p => p.2.concerns)) =
    roles.flatMap (fun r => (cross_validate_with_role (calls r)).concerns) := by
  induction roles with
  | nil => rfl
  | cons hd tl ih => simp only [List.map_cons, List.flatMap_cons, ih]

/-- A fresh `pending` checkpoint as `create_checkpoint("c1", "spec")` builds it. -/
def pendingC1 : CheckpointStatus :=
  { checkpoint_id := "c1", stage := "spec", status := "pending", timestamp := 0 }

/-- A checkpoint already in the terminal `approved` state. -/
def approvedC1 : CheckpointStatus :=
  { checkpoint_id := "c1", stage := "spec", status := "approved", timestamp := 0,
    approved_by := some ["architect"] }

def scenarioCStore : Store := insertStore (fun _ => none) "c1" pendingC1

def approvedStore : Store := insertStore (fun _ => none) "c1" approvedC1

def scenarioCPrimary : ValidationResult := { is_approved := true }

def scenarioCCalls : String → Except String RoleFeedback := fun _ => .ok ⟨[], []⟩

/-- Role calls where the engineer raises one concern. -/
def engineerConcernCalls : String → Except String RoleFeedback :=
  fun r => if r = "engineer" then .ok ⟨["Missing tests"], []⟩ else .ok ⟨[], []⟩

/-- Role calls where the engineer's advisory call fails outright. -/
def failingCalls : String → Except String RoleFeedback :=
  fun r => if r = "engineer" then .error "network down" else .ok ⟨[], []⟩

/-- The checkpoint record scenario C produces. -/
def scenarioCResult : CheckpointStatus :=
  { pendingC1 with
    validation_result := some scenarioCPrimary,
    cross_validation_results := some [("architect", ⟨[], []⟩), ("engineer", ⟨[], []⟩)],
    blocking_issues := none,
    status := "approved",
    approved_by := some ["architect", "engineer"] }

/-! ## Claim theorems -/

/-- C1: the approval decision applies its rules in the spec's exact priority
order, first match winning (the source cascade coincides with the §4.6 rule
list); moreover `security_score` exactly 70 does not fire rule 2 (the verdict
on an otherwise clean artifact is never `rejected`), and scores exactly
(security 80, maintainability 70, performance 75) with no disqualifying
findings yield `approved`. -/
theorem approval_rules_priority_order :
    (∀ (findings : List ReviewFinding) (m : CodeMetrics),
      determine_approval_status findings m = approvalSpecRules findings m) ∧
    (∀ (mi : ℝ) (ps : ℚ) (loc cl : Nat) (cx : List (String × Nat)) (deps : List String),
      determine_approval_status [] ⟨loc, cl, cx, deps, mi, 70, ps⟩ ≠ "rejected") ∧
    (∀ (loc cl : Nat) (cx : List (String × Nat)) (deps : List String),
      determine_approval_status [] ⟨loc, cl, cx, deps, 70, 80, 75⟩ = "approved") := by
  refine ⟨fun findings m => ?_, fun mi ps loc cl cx deps => ?_, fun loc cl cx deps => ?_⟩
  · simp only [determine_approval_status, approvalSpecRules, List.any_eq_true,
      beq_iff_eq, filter_severity_congr]
  · simp only [determine_approval_status]
    split_ifs with h1 h2 h3 h4 h5
    · simp at h1
    · exact absurd h2 (by norm_num)
    · simp at h3
    · decide
    · decide
    · decide
  · simp only [determine_approval_status]
    split_ifs with h1 h2 h3 h4 h5
    · simp at h1
    · exact absurd h2 (by norm_num)
    · simp at h3
    · exact absurd h4 (by norm_num)
    · rfl
    · exact absurd ⟨by norm_num, by norm_num, by norm_num⟩ h5

/-- C8: the maintainability scorer is a pure function of
`(total_lines, comment_lines, total_complexity)`: it returns `0.0` when
`total_lines = 0`, and otherwise the spec's closed form
`100 − (complexity/lines)×25 + (comments/lines)×15 − ln(lines)×10` clamped to
`[0, 100]`. -/
theorem maintainability_closed_form :
    (∀ t c cx : Nat, calculate_maintainability t c cx = maintainabilitySpecForm t c cx) ∧
    (∀ c cx : Nat, calculate_maintainability 0 c cx = 0) ∧
    (∀ t c cx : Nat,
      0 ≤ calculate_maintainability t c cx ∧ calculate_maintainability t c cx ≤ 100) := by
  refine ⟨fun t c cx => rfl, fun c cx => by norm_num [calculate_maintainability],
    fun t c cx => ?_⟩
  unfold calculate_maintainability
  by_cases h : t = 0
  · simp [h]
  · simp only [h, if_false]
    exact ⟨le_max_left 0 _, max_le (by norm_num) (min_le_left _ _)⟩

/-- C6: the security score starts at 100, deducts the per-severity amounts
(low 5, medium 10, high 20, critical 40) per detected issue and is floored at
0; with no detected issues it is exactly 100; and a source consisting of one
`eval` call yields exactly one critical security finding, a security score of
60, and — since 60 < 70 — a final approval status of `rejected` regardless of
the other metrics and findings. -/
theorem security_score_formula_and_eval_scenario :
    (∀ t : Ast, analyze_security t =
      max 0 (100 - ((security_issues_of t).map (fun i => securityDeduction i.severity)).sum)) ∧
    (∀ t : Ast, security_issues_of t = [] → analyze_security t = 100) ∧
    security_issues_of evalOnlyTree = [evalIssue] ∧
    evalIssue.severity = "critical" ∧
    analyze_security evalOnlyTree = 60 ∧
    (∀ (findings : List ReviewFinding) (loc cl : Nat) (cx : List (String × Nat))
      (deps : List String) (mi : ℝ) (ps : ℚ),
      determine_approval_status findings ⟨loc, cl, cx, deps, mi, 60, ps⟩ = "rejected") := by
  refine ⟨fun t => ?_, fun t h => ?_, by decide, rfl, ?_, fun findings loc cl cx deps mi ps => ?_⟩
  · rw [analyze_security_unfold, foldl_sub_eq_sub_sum]
    by_cases h : (security_issues_of t).isEmpty
    · rw [if_pos h, List.isEmpty_iff.mp h]
      simp
    · rw [if_neg h]
  · rw [analyze_security_unfold, h]
    rfl
  · rw [analyze_security_unfold, show security_issues_of evalOnlyTree = [evalIssue] from by decide]
    simp only [List.isEmpty, List.foldl]
    rw [show securityDeduction evalIssue.severity = 40 from rfl]
    rw [max_eq_right (by norm_num : (0:ℚ) ≤ 100 - 40)]
    norm_num
  · simp only [determine_approval_status]
    split_ifs with h1 h2
    · rfl
    · rfl
    all_goals exact absurd (by norm_num : (60:ℚ) < 70) h2

/-- C6 witness: a tree with no detected issues scores exactly 100. -/
theorem security_score_formula_and_eval_scenario_witness :
    analyze_security (.module []) = 100 :=
  security_score_formula_and_eval_scenario.2.1 (.module []) rfl

/-- C5 (code bug): the performance scanner accesses `node.elts` on `ast.Dict`
nodes, which have `keys`/`values` but no `elts` field, so a perfectly
parseable source containing any dict literal raises `AttributeError` out of
`analyze_code_metrics` instead of being scored — contradicting the contract
that a parse success is always scored and only a `ParseError` aborts. -/
theorem dict_literal_raises_attribute_error :
    analyze_performance dictAssignTree =
      .error "AttributeError: Dict object has no attribute elts" ∧
    analyze_code_metrics "d = \x7b1: 2\x7d" dictAssignTree =
      .error "AttributeError: Dict object has no attribute elts" :=
  ⟨rfl, rfl⟩

/-- C7 counterexample: analyzing the empty source does **not** yield
`total_lines = 0` (splitting the empty string on newlines gives one empty
line), does **not** yield maintainability `0.0`, and the artifact is in fact
`approved` — not `needs_revision` at minimum. -/
theorem empty_source_not_as_claimed :
    (analyze_code_metrics "" (.module [])).toOption.map (fun m => m.lines_of_code) ≠ some 0 ∧
    (analyze_code_metrics "" (.module [])).toOption.map
      (fun m => m.maintainability_index) ≠ some 0 ∧
    (analyze_code_metrics "" (.module [])).toOption.map
      (fun m => determine_approval_status [] m) = some "approved" := by
  refine ⟨?_, ?_, ?_⟩
  · rw [empty_metrics_eq]
    show some emptyMetrics.lines_of_code ≠ some 0
    rw [show emptyMetrics.lines_of_code = 1 from rfl]
    simp
  · rw [empty_metrics_eq]
    show some emptyMetrics.maintainability_index ≠ some 0
    rw [empty_maintainability]
    intro h
    exact absurd (Option.some.inj h) (by norm_num)
  · rw [empty_metrics_eq]
    refine congrArg some ?_
    simp only [determine_approval_status]
    split_ifs with h1 h2 h3 h4 h5
    · simp at h1
    · rw [show emptyMetrics.security_score = 100 from rfl] at h2
      exact absurd h2 (by norm_num)
    · simp at h3
    · rw [empty_maintainability] at h4
      exact absurd h4 (by norm_num)
    · rfl
    · refine absurd ⟨?_, ?_, ?_⟩ h5
      · rw [show emptyMetrics.security_score = 100 from rfl]; norm_num
      · rw [empty_maintainability]; norm_num
      · rw [show emptyMetrics.performance_score = 100 from rfl]; norm_num

/-- C7 amended: analyzing empty source yields `total_lines = 1` (Python's
`''.split('\n')` is `['']`), hence `maintainability_index = 100.0`
(`ln 1 = 0` and no complexity), and with no advisory findings the approval
status is `approved` — the zero-lines branch of the scorer is unreachable
through `analyze_code_metrics`. -/
theorem empty_source_one_line_approved :
    (analyze_code_metrics "" (.module [])).toOption.map (fun m => m.lines_of_code) = some 1 ∧
    (analyze_code_metrics "" (.module [])).toOption.map
      (fun m => m.maintainability_index) = some 100 ∧
    (analyze_code_metrics "" (.module [])).toOption.map
      (fun m => determine_approval_status [] m) = some "approved" := by
  refine ⟨rfl, ?_, ?_⟩
  · rw [empty_metrics_eq]
    show some emptyMetrics.maintainability_index = some 100
    rw [empty_maintainability]
  · rw [empty_metrics_eq]
    refine congrArg some ?_
    simp only [determine_approval_status]
    split_ifs with h1 h2 h3 h4 h5
    · simp at h1
    · rw [show emptyMetrics.security_score = 100 from rfl] at h2
      exact absurd h2 (by norm_num)
    · simp at h3
    · rw [empty_maintainability] at h4
      exact absurd h4 (by norm_num)
    · rfl
    · refine absurd ⟨?_, ?_, ?_⟩ h5
      · rw [show emptyMetrics.security_score = 100 from rfl]; norm_num
      · rw [empty_maintainability]; norm_num
      · rw [show emptyMetrics.performance_score = 100 from rfl]; norm_num

/-- C2: for an existing checkpoint, `validate_checkpoint` sets the blocking
issues to the concatenation of all roles' concerns (the field itself is
normalised to `None` when that concatenation is empty), sets the status to
`approved` exactly when the primary validation approved and the concatenation
is empty — recording `approved_by` as the full role list — and to `rejected`
otherwise; consequently an `approved` checkpoint carries no blocking issues. -/
theorem validate_checkpoint_blocking_and_status :
    ∀ (store : Store) (id : String) (c : CheckpointStatus) (primary : ValidationResult)
      (roles : List String) (calls : String → Except String RoleFeedback)
      (c' : CheckpointStatus) (store' : Store),
      store id = some c →
      validate_checkpoint store id primary roles calls = .ok (c', store') →
      c'.blocking_issues.getD [] =
        roles.flatMap (fun r => (cross_validate_with_role (calls r)).concerns) ∧
      (c'.status = "approved" ↔ (primary.is_approved = true ∧
        roles.flatMap (fun r => (cross_validate_with_role (calls r)).concerns) = [])) ∧
      (c'.status = "approved" → c'.approved_by = some roles) ∧
      (c'.status ≠ "approved" → c'.status = "rejected") ∧
      (c'.status = "approved" → c'.blocking_issues = none) := by
  intro store id c primary roles calls c' store' hlook hv
  simp only [validate_checkpoint, hlook] at hv
  rw [Except.ok.injEq, Prod.mk.injEq] at hv
  obtain ⟨hc', _⟩ := hv
  subst hc'
  rw [flatMap_concerns] at *
  by_cases hM : roles.flatMap (fun r => (cross_validate_with_role (calls r)).concerns) = []
  · cases hp : primary.is_approved
    · simp [hM, hp]
    · simp [hM, hp]
  · have hb : (roles.flatMap
        (fun r => (cross_validate_with_role (calls r)).concerns)).isEmpty = false := by
      simpa [List.isEmpty_iff] using hM
    simp [hb, hM]

/-- C2 witness: scenario C — a pending checkpoint, two roles with no
concerns, primary validation approved — ends `approved`, with
`approved_by = ["architect", "engineer"]` and no blocking issues. -/
theorem validate_checkpoint_blocking_and_status_witness :
    scenarioCResult.status = "approved" ∧
    scenarioCResult.approved_by = some ["architect", "engineer"] ∧
    scenarioCResult.blocking_issues = none := by
  have h := validate_checkpoint_blocking_and_status scenarioCStore "c1" pendingC1
    scenarioCPrimary ["architect", "engineer"] scenarioCCalls scenarioCResult
    (insertStore scenarioCStore "c1" scenarioCResult) rfl rfl
  exact ⟨h.2.1.mpr ⟨rfl, rfl⟩, h.2.2.1 (h.2.1.mpr ⟨rfl, rfl⟩), h.2.2.2.2 (h.2.1.mpr ⟨rfl, rfl⟩)⟩

/-- C3 counterexample: with a checkpoint `c1` already stored in the terminal
`approved` state, `create_checkpoint("c1", "spec")` does **not** fail — there
is no duplicate check at all — and it silently replaces the existing record
with a fresh `pending` one, so the existing record is not left unchanged. -/
theorem create_checkpoint_duplicate_no_failure :
    approvedStore "c1" = some approvedC1 ∧
    approvedC1.status = "approved" ∧
    (create_checkpoint approvedStore "c1" "spec" 5).1.status = "pending" ∧
    (create_checkpoint approvedStore "c1" "spec" 5).2 "c1" =
      some (create_checkpoint approvedStore "c1" "spec" 5).1 ∧
    (create_checkpoint approvedStore "c1" "spec" 5).2 "c1" ≠ some approvedC1 := by
  refine ⟨rfl, rfl, rfl, rfl, ?_⟩
  intro h
  have := Option.some.inj h
  simp [create_checkpoint, approvedC1] at this

/-- C3 amended: `create_checkpoint(id, stage)` always inserts a fresh
`pending` record under `id`; when a checkpoint with that id already exists it
is silently overwritten (no `DuplicateCheckpointError` exists in the source),
and every other key is untouched. -/
theorem create_checkpoint_always_inserts_pending :
    ∀ (store : Store) (id stage : String) (now : Nat),
      (create_checkpoint store id stage now).1 =
        { checkpoint_id := id, stage := stage, status := "pending", timestamp := now } ∧
      (create_checkpoint store id stage now).2 id =
        some (create_checkpoint store id stage now).1 ∧
      (∀ k, k ≠ id → (create_checkpoint store id stage now).2 k = store k) := by
  intro store id stage now
  refine ⟨rfl, by simp [create_checkpoint, insertStore], fun k hk => ?_⟩
  simp [create_checkpoint, insertStore, hk]

/-- C3 amended witness: creating `c1` in the empty store leaves key `c2`
absent. -/
theorem create_checkpoint_always_inserts_pending_witness :
    (create_checkpoint (fun _ => none) "c1" "spec" 0).2 "c2" = none :=
  (create_checkpoint_always_inserts_pending (fun _ => none) "c1" "spec" 0).2.2 "c2" (by decide)

/-- C4 counterexample: `validate_checkpoint` does **not** require the target
checkpoint to be `pending` — called on a checkpoint already in the terminal
`approved` state it succeeds, and (here, because the engineer raises a
concern) flips the status to `rejected`, so a terminal state is changed
again. -/
theorem validate_checkpoint_revalidates_terminal :
    approvedStore "c1" = some approvedC1 ∧
    approvedC1.status = "approved" ∧
    (validate_checkpoint approvedStore "c1" { is_approved := true }
      ["architect", "engineer"] engineerConcernCalls).toOption.map (fun p => p.1.status) =
      some "rejected" :=
  ⟨rfl, rfl, rfl⟩

/-- C4 amended: `validate_checkpoint` requires only that the checkpoint
exist — it raises `ValueError` exactly on a missing id — and for an existing
checkpoint of **any** status (pending or terminal) it proceeds and assigns a
fresh `approved`/`rejected` outcome, so a terminal checkpoint can have its
status changed by a later call. -/
theorem validate_checkpoint_existence_only :
    ∀ (store : Store) (id : String) (primary : ValidationResult) (roles : List String)
      (calls : String → Except String RoleFeedback),
      (store id = none →
        validate_checkpoint store id primary roles calls =
          .error ("Checkpoint " ++ id ++ " not found")) ∧
      (∀ c, store id = some c →
        (∃ c' store', validate_checkpoint store id primary roles calls = .ok (c', store')) ∧
        ((validate_checkpoint store id primary roles calls).toOption.map (fun p => p.1.status) =
            some "approved" ∨
         (validate_checkpoint store id primary roles calls).toOption.map (fun p => p.1.status) =
            some "rejected")) := by
  intro store id primary roles calls
  constructor
  · intro h
    simp [validate_checkpoint, h]
  · intro c h
    simp only [validate_checkpoint, h]
    refine ⟨⟨_, _, rfl⟩, ?_⟩
    by_cases hb : (primary.is_approved &&
        ((roles.map (fun role => (role, cross_validate_with_role (calls role)))).flatMap
          (fun p => p.2.concerns)).isEmpty) = true
    · left
      simp only [hb, if_true]
      rfl
    · right
      simp only [Bool.not_eq_true] at hb
      simp only [hb, Bool.false_eq_true, if_false]
      rfl

/-- C4 amended witness: a missing id errors; the approved checkpoint from the
counterexample store is accepted for validation. -/
theorem validate_checkpoint_existence_only_witness :
    validate_checkpoint (fun _ => none) "c9" { is_approved := true } []
      (fun _ => .ok ⟨[], []⟩) = .error "Checkpoint c9 not found" ∧
    (∃ c' store', validate_checkpoint approvedStore "c1" { is_approved := true }
      ["architect", "engineer"] engineerConcernCalls = .ok (c', store')) :=
  ⟨(validate_checkpoint_existence_only (fun _ => none) "c9" { is_approved := true } []
      (fun _ => .ok ⟨[], []⟩)).1 rfl,
   ((validate_checkpoint_existence_only approvedStore "c1" { is_approved := true }
      ["architect", "engineer"] engineerConcernCalls).2 approvedC1 rfl).1⟩

/-- C9: a failing per-role advisory call is folded by
`cross_validate_with_role` into a `RoleFeedback` whose concerns list is the
single error-message string, and the join in `validate_checkpoint` still
completes with an entry for **every** requested role — one unreachable role
never aborts the join nor blocks the other roles' feedback. -/
theorem role_failure_folded_into_concerns :
    (∀ m : String, cross_validate_with_role (.error m) =
      { concerns := ["Cross-validation error: " ++ m],
        suggestions := ["Please retry the validation process"] }) ∧
    (∀ (store : Store) (id : String) (c : CheckpointStatus) (primary : ValidationResult)
      (roles : List String) (calls : String → Except String RoleFeedback),
      store id = some c →
      ∃ c' store', validate_checkpoint store id primary roles calls = .ok (c', store') ∧
        c'.cross_validation_results =
          some (roles.map (fun r => (r, cross_validate_with_role (calls r))))) := by
  refine ⟨fun m => rfl, fun store id c primary roles calls h => ?_⟩
  simp only [validate_checkpoint, h]
  exact ⟨_, _, rfl, rfl⟩

/-- C9 witness: with the engineer's call failing with `network down`, the
error message becomes that role's sole concern and the join over both roles
completes. -/
theorem role_failure_folded_into_concerns_witness :
    cross_validate_with_role (.error "network down") =
      { concerns := ["Cross-validation error: network down"],
        suggestions := ["Please retry the validation process"] } ∧
    (validate_checkpoint scenarioCStore "c1" scenarioCPrimary ["architect", "engineer"]
      failingCalls).toOption.map (fun p => p.1.cross_validation_results) =
      some (some [("architect", ⟨[], []⟩),
        ("engineer", ⟨["Cross-validation error: network down"],
          ["Please retry the validation process"]⟩)]) := by
  refine ⟨role_failure_folded_into_concerns.1 "network down", ?_⟩
  obtain ⟨c', s', hv, hc⟩ := role_failure_folded_into_concerns.2 scenarioCStore "c1"
    pendingC1 scenarioCPrimary ["architect", "engineer"] failingCalls rfl
  rw [hv]
  show some c'.cross_validation_results = _
  rw [hc]
  rfl

/-- C10 counterexample: reviewing identical source twice with identical
advisory findings does **not** yield byte-identical `ReviewSummary` values —
the summary records `datetime.now()`, so two runs at different instants
differ in the `timestamp` field. -/
theorem review_summaries_differ_in_timestamp :
    review_code 0 "" (.module []) "f.py" none [] [] "" ≠
    review_code 1 "" (.module []) "f.py" none [] [] "" := by
  intro h
  have h0 : (review_code 0 "" (.module []) "f.py" none [] [] "").toOption.map
      (fun s => s.timestamp) = some 0 := rfl
  rw [h] at h0
  have h1 : (review_code 1 "" (.module []) "f.py" none [] [] "").toOption.map
      (fun s => s.timestamp) = some 1 := rfl
  rw [h1] at h0
  exact absurd (Option.some.inj h0) (by norm_num)

/-- C10 amended: the analysis pipeline is a pure function of the source and
the supplied findings — two reviews of identical source with identical
advisory findings agree on every `ReviewSummary` field except `timestamp`,
which records the wall-clock instant of each call (`CodeMetrics` does not
depend on the clock at all, so it is byte-identical across the two runs). -/
theorem review_deterministic_except_timestamp :
    ∀ (n₁ n₂ : Nat) (code : String) (tree : Ast) (fp : String) (cid : Option String)
      (findings : List ReviewFinding) (recs : List String) (comments : String),
      (review_code n₁ code tree fp cid findings recs comments).map
        (fun s => { s with timestamp := 0 }) =
      (review_code n₂ code tree fp cid findings recs comments).map
        (fun s => { s with timestamp := 0 }) := by
  intro n₁ n₂ code tree fp cid findings recs comments
  cases h : analyze_code_metrics code tree <;> simp [review_code, h, Except.map]

end AIAgents
